import Mathlib

/-!
# Startup sequence and communication objects of the ME405 PID-loop program

A shallow embedding of `main()` from `test_main.cpp` together with the
declarations of `shares.h`.  `main()` is straight-line code, so it is embedded
as the ordered list of the actions it performs, one entry per statement, with
the arguments of every call kept in source order.
-/

namespace ME405

/-! ## Data model -/

/-- Element types used as template arguments of `shared_data<T>` and
`frt_queue<T>`, and by the bare `new uint32_t`. -/
inductive ElemType
  | int32_t
  | uint32_t
  | int16_t
  | bool
  | float
  deriving DecidableEq, Repr

/-- The global pointer variables defined in `test_main.cpp` (lines 77-137). -/
inductive GlobalName
  | print_ser_queue
  | count
  | error
  | p_queue_1
  | p_share_1
  | power_1
  | power_2
  | brake_1
  | brake_2
  | pot_1
  | pot_2
  | p_glob_of_probs
  | p_rate_1
  | isCorrectPos
  | correctPos
  deriving DecidableEq, Repr

/-- The class of the object a global pointer points to.  `plain t` is a bare
value of type `t` with no wrapper class, as in `uint32_t* p_glob_of_probs`. -/
inductive ObjType
  | frt_text_queue
  | shared_data (t : ElemType)
  | frt_queue (t : ElemType)
  | plain (t : ElemType)
  deriving DecidableEq, Repr

/-- The local variables of `main()` holding the two `motor_driver` objects. -/
inductive DriverVar
  | p_my_motor_driver1
  | p_my_motor_driver2
  deriving DecidableEq, Repr

/-- The task classes instantiated by `main()`. -/
inductive TaskClass
  | task_P
  | task_motor
  | task_encoder
  | task_user
  deriving DecidableEq, Repr

/-- The AVR special-function registers named in `main()`. -/
inductive Register
  | MCUSR
  | DDRB
  | DDRC
  | DDRD
  | PORTC
  | PORTD
  | TCCR1A
  | TCCR1B
  | OCR1A
  | OCR1B
  deriving DecidableEq, Repr

/-- The pin-number constants of `avr/io.h` named in `main()`. -/
inductive Pin
  | PE4
  | PE5
  deriving DecidableEq, Repr

/-- An argument expression of a constructor call in `main()`. -/
inductive Arg
  /-- A string literal such as `"Motor1"`. -/
  | str (s : String)
  /-- An integer literal such as `240` or `0x07`. -/
  | num (n : Nat)
  /-- The expression `tskIDLE_PRIORITY + k`. -/
  | idlePriorityPlus (k : Nat)
  /-- The expression `&ser_port`. -/
  | ser_port
  /-- The address of a register, such as `&DDRC`. -/
  | reg (r : Register)
  /-- A pin constant, `PE4` or `PE5`. -/
  | pin (p : Pin)
  /-- The value of a local `motor_driver*` variable. -/
  | driver (d : DriverVar)
  /-- The value of a global pointer, such as `brake_1`. -/
  | global (g : GlobalName)
  deriving DecidableEq, Repr

/-- One item inserted into the serial port with `<<`. -/
inductive StreamItem
  | clrscr
  | PMS (text : String)
  | endl
  deriving DecidableEq, Repr

/-- One statement of `main()`. -/
inductive Action
  /-- The assignment `r = v` to a register (`MCUSR = 0`). -/
  | assignReg (r : Register) (v : Nat)
  /-- The call `wdt_disable ()`. -/
  | wdt_disable
  /-- The definition `rs232 ser_port (baud, port)`. -/
  | rs232_ser_port (baud : Nat) (port : Nat)
  /-- The statement `ser_port << item << ...`. -/
  | serialWrite (items : List StreamItem)
  /-- The assignment `g = new cls (args)` to a global pointer. -/
  | assignNew (g : GlobalName) (cls : ObjType) (args : List Arg)
  /-- The definition `motor_driver *v = new motor_driver (args)`. -/
  | newDriver (v : DriverVar) (args : List Arg)
  /-- The statement `new cls (args)` creating a task. -/
  | newTask (cls : TaskClass) (args : List Arg)
  /-- The call `vTaskStartScheduler ()`. -/
  | vTaskStartScheduler
  deriving DecidableEq, Repr

/-! ## The declarations of `shares.h` and the definitions of `test_main.cpp` -/

/-- The declarations of `shares.h` (lines 40-90), in source order: each global
pointer with the class of its pointee. -/
def sharesDecls : List (GlobalName × ObjType) :=
  [ (.print_ser_queue, .frt_text_queue),
    (.count, .shared_data .int32_t),
    (.error, .shared_data .int32_t),
    (.p_queue_1, .frt_queue .uint32_t),
    (.p_share_1, .shared_data .uint32_t),
    (.power_1, .shared_data .int16_t),
    (.power_2, .shared_data .int16_t),
    (.brake_1, .shared_data .bool),
    (.brake_2, .shared_data .bool),
    (.pot_1, .shared_data .bool),
    (.pot_2, .shared_data .bool),
    (.p_rate_1, .shared_data .float),
    (.isCorrectPos, .shared_data .bool),
    (.correctPos, .shared_data .int32_t) ]

/-- The global definitions of `test_main.cpp` (lines 77-137), in source
order. -/
def globalDefs : List (GlobalName × ObjType) :=
  [ (.print_ser_queue, .frt_text_queue),
    (.count, .shared_data .int32_t),
    (.error, .shared_data .int32_t),
    (.p_queue_1, .frt_queue .uint32_t),
    (.p_share_1, .shared_data .uint32_t),
    (.power_1, .shared_data .int16_t),
    (.power_2, .shared_data .int16_t),
    (.brake_1, .shared_data .bool),
    (.brake_2, .shared_data .bool),
    (.pot_1, .shared_data .bool),
    (.pot_2, .shared_data .bool),
    (.p_glob_of_probs, .plain .uint32_t),
    (.p_rate_1, .shared_data .float),
    (.isCorrectPos, .shared_data .bool),
    (.correctPos, .shared_data .int32_t) ]

/-! ## The body of `main()` -/

/-- The statements of `main()` (test_main.cpp lines 150-205) in execution
order. -/
def main : List Action :=
  [ .assignReg .MCUSR 0,
    .wdt_disable,
    .rs232_ser_port 9600 1,
    .serialWrite [.clrscr, .PMS "ME405/FreeRTOS Test Program", .endl],
    .assignNew .print_ser_queue .frt_text_queue [.num 32, .ser_port, .num 10],
    .assignNew .count (.shared_data .int32_t) [],
    .assignNew .error (.shared_data .int32_t) [],
    .assignNew .p_queue_1 (.frt_queue .uint32_t) [.num 20],
    .assignNew .p_share_1 (.shared_data .uint32_t) [],
    .assignNew .power_1 (.shared_data .int16_t) [],
    .assignNew .power_2 (.shared_data .int16_t) [],
    .assignNew .brake_1 (.shared_data .bool) [],
    .assignNew .brake_2 (.shared_data .bool) [],
    .assignNew .pot_1 (.shared_data .bool) [],
    .assignNew .pot_2 (.shared_data .bool) [],
    .assignNew .isCorrectPos (.shared_data .bool) [],
    .assignNew .correctPos (.shared_data .int32_t) [],
    .assignNew .p_glob_of_probs (.plain .uint32_t) [],
    .assignNew .p_rate_1 (.shared_data .float) [],
    .newDriver .p_my_motor_driver1
      [.ser_port, .reg .DDRC, .num 0x07, .reg .DDRB, .num 0x40, .reg .PORTC, .num 0x04,
       .reg .TCCR1A, .num 0xA9, .reg .TCCR1B, .num 0x0B, .reg .OCR1B],
    .newDriver .p_my_motor_driver2
      [.ser_port, .reg .DDRD, .num 0xE0, .reg .DDRB, .num 0x20, .reg .PORTD, .num 0x80,
       .reg .TCCR1A, .num 0xA9, .reg .TCCR1B, .num 0x0B, .reg .OCR1A],
    .newTask .task_P
      [.str "P1", .idlePriorityPlus 1, .num 240, .ser_port, .driver .p_my_motor_driver1],
    .newTask .task_motor
      [.str "Motor1", .idlePriorityPlus 1, .num 240, .num 3, .driver .p_my_motor_driver1,
       .global .brake_1, .global .power_1, .global .pot_1, .num 1, .ser_port],
    .newTask .task_motor
      [.str "Motor2", .idlePriorityPlus 1, .num 240, .num 4, .driver .p_my_motor_driver2,
       .global .brake_2, .global .power_2, .global .pot_2, .num 0, .ser_port],
    .newTask .task_encoder
      [.str "Encoder1", .idlePriorityPlus 1, .num 240, .ser_port, .pin .PE4, .num 0b01010101],
    .newTask .task_encoder
      [.str "Encoder2", .idlePriorityPlus 1, .num 240, .ser_port, .pin .PE5, .num 0b01010101],
    .newTask .task_user [.str "UserInt", .idlePriorityPlus 1, .num 240, .ser_port],
    .serialWrite [.endl],
    .vTaskStartScheduler ]

/-! ## Observations on single actions -/

/-- Whether a pointee class is one of the guarded communication classes
(`shared_data<T>`, `frt_queue<T>`, `frt_text_queue`) rather than a bare value. -/
def ObjType.isGuarded : ObjType → Bool
  | .frt_text_queue => true
  | .shared_data _ => true
  | .frt_queue _ => true
  | .plain _ => false

/-- Whether a pointee class is a queue. -/
def ObjType.isQueue : ObjType → Bool
  | .frt_text_queue => true
  | .frt_queue _ => true
  | _ => false

/-- A registry construction: `g = new C (...)` with `C` a shared-data or queue
class. -/
def Action.isRegistryConstruction : Action → Bool
  | .assignNew _ cls _ => cls.isGuarded
  | _ => false

/-- A construction of a `motor_driver`. -/
def Action.isDriverConstruction : Action → Bool
  | .newDriver _ _ => true
  | _ => false

/-- A task creation. -/
def Action.isTaskCreation : Action → Bool
  | .newTask _ _ => true
  | _ => false

/-- The scheduler start. -/
def Action.isSchedulerStart : Action → Bool
  | .vTaskStartScheduler => true
  | _ => false

/-- A direct write to the serial port. -/
def Action.isSerialWrite : Action → Bool
  | .serialWrite _ => true
  | _ => false

/-- The argument list of a constructor call; empty for the other statements. -/
def Action.args : Action → List Arg
  | .assignNew _ _ as => as
  | .newDriver _ as => as
  | .newTask _ as => as
  | _ => []

/-- The global communication objects named in an argument list. -/
def registryRefsOf : List Arg → List GlobalName
  | [] => []
  | .global g :: rest => g :: registryRefsOf rest
  | _ :: rest => registryRefsOf rest

/-- The motor drivers named in an argument list. -/
def driverRefsOf : List Arg → List DriverVar
  | [] => []
  | .driver d :: rest => d :: driverRefsOf rest
  | _ :: rest => driverRefsOf rest

/-- Whether an argument list contains `&ser_port`. -/
def passesSerial : List Arg → Bool
  | [] => false
  | .ser_port :: _ => true
  | _ :: rest => passesSerial rest

/-- The communication objects passed to a constructor call. -/
def Action.registryRefs (a : Action) : List GlobalName :=
  registryRefsOf a.args

/-- The motor drivers passed to a constructor call. -/
def Action.driverRefs (a : Action) : List DriverVar :=
  driverRefsOf a.args

/-- Whether a constructor call is passed `&ser_port`. -/
def Action.receivesSerial (a : Action) : Bool :=
  passesSerial a.args

/-- The name a task is created with: the string literal that is the first
argument of its constructor. -/
def Action.taskName : Action → Option String
  | .newTask _ (.str s :: _) => some s
  | _ => none

/-- The class of a created task. -/
def Action.taskClass : Action → Option TaskClass
  | .newTask cls _ => some cls
  | _ => none

/-- The classes assigned to global `g` by the statements `acts`, in order. -/
def constructionsOf (acts : List Action) (g : GlobalName) : List ObjType :=
  acts.filterMap fun a =>
    match a with
    | .assignNew g1 cls _ => if g1 = g then some cls else none
    | _ => none

/-- The index of the first task creation in `main()`. -/
def firstTaskIndex : Nat :=
  main.findIdx Action.isTaskCreation

/-- The task creation in `acts` whose name is `n`, if any. -/
def taskNamed (acts : List Action) (n : String) : Option Action :=
  acts.find? fun a => a.taskName == some n

/-- The communication objects constructed by the statements `acts`, in order:
the targets of the registry constructions. -/
def registryTargets (acts : List Action) : List GlobalName :=
  acts.filterMap fun a =>
    match a with
    | .assignNew g cls _ => if cls.isGuarded then some g else none
    | _ => none

/-- The shared-data cells constructed by the statements `acts`, each with its
element type. -/
def sharedCellsOf (acts : List Action) : List (GlobalName × ElemType) :=
  acts.filterMap fun a =>
    match a with
    | .assignNew g (.shared_data t) _ => some (g, t)
    | _ => none

/-- The size argument of a queue constructor: the first argument, an integer
literal (`frt_queue<type> name (size)`, test_main.cpp lines 65-70). -/
def queueSize : List Arg → Option Nat
  | .num n :: _ => some n
  | _ => none

/-- The queues constructed by the statements `acts`, each with its size
argument. -/
def queueCapacities (acts : List Action) : List (GlobalName × Option Nat) :=
  acts.filterMap fun a =>
    match a with
    | .assignNew g cls args => if cls.isQueue then some (g, queueSize args) else none
    | _ => none

/-- An object or task that is handed something by its constructor call. -/
inductive Holder
  | global (g : GlobalName)
  | driver (d : DriverVar)
  | task (name : String)
  deriving DecidableEq, Repr

/-- The object or task a constructor call creates. -/
def Action.holder : Action → Option Holder
  | .assignNew g _ _ => some (.global g)
  | .newDriver d _ => some (.driver d)
  | .newTask _ (.str s :: _) => some (.task s)
  | _ => none

/-- The objects and tasks that are passed `&ser_port` at construction, in
order. -/
def serialHolders (acts : List Action) : List Holder :=
  acts.filterMap fun a => if a.receivesSerial then a.holder else none

/-- The positions in `acts` of the direct writes to the serial port. -/
def serialWriteIndices (acts : List Action) : List Nat :=
  (List.range acts.length).filter fun i => (acts[i]?).any Action.isSerialWrite

/-- The values of an element type.  Integers are mathematical integers within
the range of the machine type; a `float` is its 32-bit encoding. -/
def ElemType.Val : ElemType → Type
  | .int32_t => { x : Int // -2147483648 ≤ x ∧ x ≤ 2147483647 }
  | .uint32_t => { x : Nat // x ≤ 4294967295 }
  | .int16_t => { x : Int // -32768 ≤ x ∧ x ≤ 32767 }
  | .bool => Bool
  | .float => { x : Nat // x ≤ 4294967295 }

/-- The zero value of an element type. -/
def ElemType.zero : (t : ElemType) → t.Val
  | .int32_t => (⟨0, by decide⟩ : { x : Int // -2147483648 ≤ x ∧ x ≤ 2147483647 })
  | .uint32_t => (⟨0, by decide⟩ : { x : Nat // x ≤ 4294967295 })
  | .int16_t => (⟨0, by decide⟩ : { x : Int // -32768 ≤ x ∧ x ≤ 32767 })
  | .bool => false
  | .float => (⟨0, by decide⟩ : { x : Nat // x ≤ 4294967295 })

/-! ## The communication primitives

The classes `shared_data<T>`, `frt_queue<T>` and `frt_text_queue` are defined in
headers that `test_main.cpp` includes (`frt_shared_data.h`, `frt_queue.h`,
`frt_text_queue.h`).  Their behaviour is modelled here as the specification
describes it, for a single caller: no other task operates on the object while
an operation is in progress. -/

/-- Modelled from the spec: the error codes of the missing queue and
shared-data headers; this is the error taxonomy of the specification. -/
inductive CommError
  | Timeout
  | WouldBlock
  | CapacityMisconfiguration
  | DoubleInitialization
  deriving DecidableEq, Repr

/-- Modelled from the spec: the class `shared_data<T>` of `frt_shared_data.h`
is missing; this is the SharedCell of the specification, a single value of type
`T` with a mutual-exclusion guard (`guard` is true while the lock is held). -/
structure SharedCell (T : Type) where
  value : T
  guard : Bool

/-- Modelled from the spec: the constructor of `shared_data<T>` is missing; a
cell is created with a default/zero value and its lock free. -/
def SharedCell.create {T : Type} (zero : T) : SharedCell T :=
  { value := zero, guard := false }

/-- Modelled from the spec: the write operation of `shared_data<T>` is missing;
`write` takes the lock, replaces the stored value and releases the lock. -/
def SharedCell.write {T : Type} (c : SharedCell T) (v : T) : SharedCell T :=
  let locked := { c with guard := true }
  let written := { locked with value := v }
  { written with guard := false }

/-- Modelled from the spec: the read operation of `shared_data<T>` is missing;
`read` returns a copy of the current value and leaves the cell as it was. -/
def SharedCell.read {T : Type} (c : SharedCell T) : T :=
  c.value

/-- The state of a shared-data cell of element type `t` right after the
statement `g = new shared_data<t>` of `main()`. -/
def startupCell (t : ElemType) : SharedCell t.Val :=
  SharedCell.create t.zero

/-- Modelled from the spec: the class `frt_queue<T>` of `frt_queue.h` is
missing; this is the BoundedQueue of the specification, a fixed capacity and an
ordered storage whose head is the oldest item. -/
structure BoundedQueue (T : Type) where
  capacity : Nat
  storage : List T

/-- Modelled from the spec: the capacity check of the queue constructor is
missing; a zero or negative capacity is rejected as CapacityMisconfiguration. -/
def capacityCheck (capacity : Int) : Except CommError Nat :=
  if capacity ≤ 0 then .error .CapacityMisconfiguration else .ok capacity.toNat

/-- Modelled from the spec: the constructor of `frt_queue<T>` is missing; a
queue is created empty with the given fixed capacity. -/
def BoundedQueue.create {T : Type} (capacity : Int) : Except CommError (BoundedQueue T) :=
  match capacityCheck capacity with
  | .ok c => .ok { capacity := c, storage := [] }
  | .error e => .error e

/-- Modelled from the spec: the timeout argument of the missing queue
operations, a number of ticks (zero meaning non-blocking) or no timeout,
meaning wait forever. -/
inductive Wait
  | ticks (n : Nat)
  | forever
  deriving DecidableEq, Repr

/-- Modelled from the spec: the send operation of `frt_queue<T>` is missing.
With space available the item is appended at the tail.  On a full queue nothing
is enqueued: a zero timeout gives WouldBlock, a positive timeout gives Timeout
once it elapses, and without a timeout the caller never returns (`none`). -/
def BoundedQueue.send {T : Type} (q : BoundedQueue T) (item : T) (w : Wait) :
    Option (Except CommError Unit × BoundedQueue T) :=
  if q.storage.length < q.capacity then
    some (.ok (), { q with storage := q.storage ++ [item] })
  else
    match w with
    | .ticks 0 => some (.error .WouldBlock, q)
    | .ticks (_ + 1) => some (.error .Timeout, q)
    | .forever => none

/-- Modelled from the spec: the receive operation of `frt_queue<T>` is missing.
With an item available the head is removed and returned.  On an empty queue
nothing changes: a zero timeout gives WouldBlock, a positive timeout gives
Timeout once it elapses, and without a timeout the caller never returns. -/
def BoundedQueue.receive {T : Type} (q : BoundedQueue T) (w : Wait) :
    Option (Except CommError T × BoundedQueue T) :=
  match q.storage with
  | item :: rest => some (.ok item, { q with storage := rest })
  | [] =>
    match w with
    | .ticks 0 => some (.error .WouldBlock, q)
    | .ticks (_ + 1) => some (.error .Timeout, q)
    | .forever => none

/-- Sending the items of a list in order, collecting the result of every send;
`none` when a send never returns. -/
def BoundedQueue.sendAll {T : Type} (q : BoundedQueue T) (w : Wait) :
    List T → Option (List (Except CommError Unit) × BoundedQueue T)
  | [] => some ([], q)
  | item :: rest =>
    match q.send item w with
    | none => none
    | some (r, q1) =>
      match BoundedQueue.sendAll q1 w rest with
      | none => none
      | some (rs, q2) => some (r :: rs, q2)

/-- Receiving `n` times, collecting the result of every receive; `none` when a
receive never returns. -/
def BoundedQueue.receiveN {T : Type} (q : BoundedQueue T) (w : Wait) :
    Nat → Option (List (Except CommError T) × BoundedQueue T)
  | 0 => some ([], q)
  | n + 1 =>
    match q.receive w with
    | none => none
    | some (r, q1) =>
      match BoundedQueue.receiveN q1 w n with
      | none => none
      | some (rs, q2) => some (r :: rs, q2)

/-- One queue operation issued by a task. -/
inductive QueueOp (T : Type)
  | send (item : T) (w : Wait)
  | receive (w : Wait)

/-- The queue after one operation; `none` when the operation never returns. -/
def BoundedQueue.step {T : Type} (q : BoundedQueue T) : QueueOp T → Option (BoundedQueue T)
  | .send item w => (q.send item w).map Prod.snd
  | .receive w => (q.receive w).map Prod.snd

/-- The states a queue passes through under a sequence of operations, the
starting state first; the sequence stops at an operation that never returns. -/
def BoundedQueue.states {T : Type} (q : BoundedQueue T) : List (QueueOp T) → List (BoundedQueue T)
  | [] => [q]
  | op :: rest =>
    match q.step op with
    | none => [q]
    | some q1 => q :: BoundedQueue.states q1 rest

/-! ## Helper lemmas on the order of statements -/

/-- If a list splits into a front part free of `q`-statements and a back part
free of `p`-statements, every `p`-statement lies in the front part and every
`q`-statement in the back part. -/
theorem index_split {acts front back : List Action} (hsplit : acts = front ++ back)
    (p q : Action → Bool) (hback : ∀ a ∈ back, p a = false) (hfront : ∀ b ∈ front, q b = false)
    {i j : Nat} {a b : Action} (ha : acts[i]? = some a) (hb : acts[j]? = some b)
    (hp : p a = true) (hq : q b = true) : i < front.length ∧ front.length ≤ j := by
  subst hsplit
  constructor
  · by_contra hi
    have hle : front.length ≤ i := Nat.le_of_not_lt hi
    rw [List.getElem?_append_right hle] at ha
    have hmem : a ∈ back := List.getElem?_mem ha
    rw [hback a hmem] at hp
    exact Bool.false_ne_true hp
  · by_contra hj
    have hlt : j < front.length := Nat.lt_of_not_le hj
    rw [List.getElem?_append_left hlt] at hb
    have hmem : b ∈ front := List.getElem?_mem hb
    rw [hfront b hmem] at hq
    exact Bool.false_ne_true hq

/-- The body of `main()` split at the first task creation. -/
theorem main_split_at_first_task : main = main.take 21 ++ main.drop 21 :=
  (List.take_append_drop 21 main).symm

/-- Only a motor-driver construction creates a motor driver. -/
theorem holder_driver {a : Action} {d : DriverVar} (h : a.holder = some (.driver d)) :
    a.isDriverConstruction = true := by
  cases a with
  | newDriver v args => rfl
  | newTask cls args =>
    cases args with
    | nil => simp [Action.holder] at h
    | cons x xs => cases x <;> simp [Action.holder] at h
  | assignNew g cls args => simp [Action.holder] at h
  | assignReg r v => simp [Action.holder] at h
  | wdt_disable => simp [Action.holder] at h
  | rs232_ser_port baud port => simp [Action.holder] at h
  | serialWrite items => simp [Action.holder] at h
  | vTaskStartScheduler => simp [Action.holder] at h

/-! ## The startup order (C1, C3) -/

/-- C1: in `main()`, the fourteen shared-data and queue instances
(print_ser_queue, count, error, p_queue_1, p_share_1, power_1, power_2, brake_1,
brake_2, pot_1, pot_2, isCorrectPos, correctPos, p_rate_1) are constructed and
tasks of the classes task_P, task_motor, task_encoder and task_user are
created; every registry construction occurs before every task creation, and no
registry construction appears at or after the index of the first task
creation. -/
theorem registry_constructed_before_tasks :
    registryTargets main =
      [.print_ser_queue, .count, .error, .p_queue_1, .p_share_1, .power_1, .power_2,
       .brake_1, .brake_2, .pot_1, .pot_2, .isCorrectPos, .correctPos, .p_rate_1] ∧
    main.filterMap Action.taskClass =
      [.task_P, .task_motor, .task_motor, .task_encoder, .task_encoder, .task_user] ∧
    ∀ (i j : Nat) (a b : Action), main[i]? = some a → main[j]? = some b →
      a.isRegistryConstruction = true → b.isTaskCreation = true →
      i < j ∧ i < firstTaskIndex := by
  refine ⟨by decide, by decide, ?_⟩
  intro i j a b ha hb hreg htask
  have hidx : firstTaskIndex = 21 := by decide
  have h := index_split main_split_at_first_task Action.isRegistryConstruction
    Action.isTaskCreation (by decide) (by decide) ha hb hreg htask
  have hlen : (main.take 21).length = 21 := by decide
  rw [hlen] at h
  rw [hidx]
  omega

/-- Witness for C1: the last registry construction (p_rate_1, statement 18)
against the first task creation (task_P, statement 21). -/
theorem registry_constructed_before_tasks_witness : 18 < 21 ∧ 18 < firstTaskIndex :=
  registry_constructed_before_tasks.2.2 18 21
    (.assignNew .p_rate_1 (.shared_data .float) [])
    (.newTask .task_P
      [.str "P1", .idlePriorityPlus 1, .num 240, .ser_port, .driver .p_my_motor_driver1])
    (by decide) (by decide) (by decide) (by decide)

/-- C3: the registry constructions, the motor-driver constructions, the task
creations and the scheduler start of `main()` occur in four successive phases.
Projected on these four kinds of statement, `main()` is the 14 registry
constructions, then the construction of both motor drivers, then the 6 task
creations, then the scheduler start; in `main()` itself every registry
construction precedes every driver construction, every driver construction
precedes every task creation, and every task creation precedes the scheduler
start.  The scheduler start is the last statement, and each motor driver is
constructed before every task that receives it, the first such task included.
The statements of `main()` of none of the four kinds are those numbered 0 to 3
(setup), 17 (the bare allocation of p_glob_of_probs) and 27 (a blank-line
print). -/
theorem startup_phase_order :
    (∃ regs drivers tasks : List Action,
      main.filter (fun a => a.isRegistryConstruction || a.isDriverConstruction
          || a.isTaskCreation || a.isSchedulerStart)
        = regs ++ drivers ++ tasks ++ [Action.vTaskStartScheduler] ∧
      (∀ a ∈ regs, a.isRegistryConstruction = true) ∧
      regs = main.filter Action.isRegistryConstruction ∧
      regs.length = 14 ∧
      (∀ a ∈ drivers, a.isDriverConstruction = true) ∧
      drivers.filterMap Action.holder
        = [.driver .p_my_motor_driver1, .driver .p_my_motor_driver2] ∧
      (∀ a ∈ tasks, a.isTaskCreation = true) ∧
      tasks = main.filter Action.isTaskCreation ∧
      tasks.length = 6) ∧
    (List.range main.length).filter (fun i => (main[i]?).any fun a =>
        !(a.isRegistryConstruction || a.isDriverConstruction
          || a.isTaskCreation || a.isSchedulerStart))
      = [0, 1, 2, 3, 17, 27] ∧
    (∀ (i j : Nat) (a b : Action), main[i]? = some a → main[j]? = some b →
      a.isRegistryConstruction = true → b.isDriverConstruction = true → i < j) ∧
    (∀ (i j : Nat) (a b : Action), main[i]? = some a → main[j]? = some b →
      a.isDriverConstruction = true → b.isTaskCreation = true → i < j) ∧
    (∀ (i j : Nat) (a b : Action), main[i]? = some a → main[j]? = some b →
      a.isTaskCreation = true → b.isSchedulerStart = true → i < j) ∧
    main.getLast? = some Action.vTaskStartScheduler ∧
    (∀ (i j : Nat) (a b : Action) (d : DriverVar), main[i]? = some a → main[j]? = some b →
      a.holder = some (.driver d) → b.isTaskCreation = true → d ∈ b.driverRefs → i < j) ∧
    (∀ d : DriverVar, ∃ b ∈ main, b.isTaskCreation = true ∧ d ∈ b.driverRefs) := by
  refine ⟨⟨main.filter Action.isRegistryConstruction, (main.drop 19).take 2,
    main.filter Action.isTaskCreation,
    by decide, by decide, rfl, by decide, by decide, by decide, by decide, rfl, by decide⟩,
    by decide, ?_, ?_, ?_, by decide, ?_, ?_⟩
  · intro i j a b ha hb hreg hdrv
    have hsplit : main = main.take 19 ++ main.drop 19 := (List.take_append_drop 19 main).symm
    have h := index_split hsplit Action.isRegistryConstruction Action.isDriverConstruction
      (by decide) (by decide) ha hb hreg hdrv
    omega
  · intro i j a b ha hb hdrv htask
    have h := index_split main_split_at_first_task Action.isDriverConstruction
      Action.isTaskCreation (by decide) (by decide) ha hb hdrv htask
    omega
  · intro i j a b ha hb htask hsched
    have hsplit : main = main.take 27 ++ main.drop 27 := (List.take_append_drop 27 main).symm
    have h := index_split hsplit Action.isTaskCreation Action.isSchedulerStart
      (by decide) (by decide) ha hb htask hsched
    omega
  · intro i j a b d ha hb hdrv htask _
    have hkind : a.isDriverConstruction = true := holder_driver hdrv
    have h := index_split main_split_at_first_task Action.isDriverConstruction
      Action.isTaskCreation (by decide) (by decide) ha hb hkind htask
    omega
  · intro d
    cases d
    · exact ⟨.newTask .task_P
        [.str "P1", .idlePriorityPlus 1, .num 240, .ser_port, .driver .p_my_motor_driver1],
        by decide, by decide, by decide⟩
    · exact ⟨.newTask .task_motor
        [.str "Motor2", .idlePriorityPlus 1, .num 240, .num 4, .driver .p_my_motor_driver2,
         .global .brake_2, .global .power_2, .global .pot_2, .num 0, .ser_port],
        by decide, by decide, by decide⟩

/-- Witness for C3: the last task creation (UserInt, statement 26) against the
scheduler start (statement 28). -/
theorem startup_phase_order_witness : 26 < 28 :=
  startup_phase_order.2.2.2.2.1 26 28
    (.newTask .task_user [.str "UserInt", .idlePriorityPlus 1, .num 240, .ser_port])
    .vTaskStartScheduler (by decide) (by decide) (by decide) (by decide)

/-! ## Construction of the declared objects (C2, C6, C10) -/

/-- C2: every communication object declared in `shares.h` is assigned a newly
constructed instance by `main()` exactly once, and the instance has the class
and element type of the declaration. -/
theorem shares_constructed_exactly_once (g : GlobalName) (ty : ObjType)
    (h : (g, ty) ∈ sharesDecls) : constructionsOf main g = [ty] := by
  have hall : ∀ d ∈ sharesDecls, constructionsOf main d.1 = [d.2] := by decide
  exact hall (g, ty) h

/-- Witness for C2: power_1, declared as `shared_data<int16_t>*`. -/
theorem shares_constructed_exactly_once_witness :
    (GlobalName.power_1, ObjType.shared_data .int16_t) ∈ sharesDecls ∧
    constructionsOf main .power_1 = [.shared_data .int16_t] :=
  ⟨by decide, shares_constructed_exactly_once .power_1 (.shared_data .int16_t) (by decide)⟩

/-- C6 as stated fails: `main()` allocates a process-wide object that is not a
guarded communication class, the bare `uint32_t` assigned to p_glob_of_probs. -/
theorem main_allocates_unguarded_global :
    ¬ ∀ (g : GlobalName) (cls : ObjType) (args : List Arg),
        Action.assignNew g cls args ∈ main → cls.isGuarded = true := by
  intro h
  exact absurd (h .p_glob_of_probs (.plain .uint32_t) [] (by decide)) (by decide)

/-- C6, amended: `main()` allocates every global pointer defined in
`test_main.cpp` exactly once, with the class of its definition; every such
object is a `shared_data<T>`, an `frt_queue<T>` or an `frt_text_queue`, except
p_glob_of_probs, which is allocated as a bare unguarded `uint32_t`. -/
theorem allocations_guarded_except_p_glob_of_probs :
    (∀ d ∈ globalDefs, constructionsOf main d.1 = [d.2]) ∧
    constructionsOf main .p_glob_of_probs = [.plain .uint32_t] ∧
    ∀ (g : GlobalName) (cls : ObjType) (args : List Arg),
      Action.assignNew g cls args ∈ main →
      (cls.isGuarded = true ↔ g ≠ .p_glob_of_probs) := by
  refine ⟨by decide, by decide, ?_⟩
  intro g cls args h
  have hall : main.all (fun a =>
      match a with
      | .assignNew g1 cls1 _ => decide (cls1.isGuarded = true ↔ g1 ≠ .p_glob_of_probs)
      | _ => true) = true := by decide
  have hone := List.all_eq_true.mp hall _ h
  exact of_decide_eq_true hone

/-- C10: the queues constructed by `main()` are print_ser_queue with size 32
and p_queue_1 with size 20; every queue size is strictly positive, so the
capacity check of the queue constructor accepts it. -/
theorem startup_queue_capacities_positive :
    queueCapacities main = [(.print_ser_queue, some 32), (.p_queue_1, some 20)] ∧
    ∀ (g : GlobalName) (c : Option Nat), (g, c) ∈ queueCapacities main →
      ∃ n : Nat, c = some n ∧ 0 < n ∧ capacityCheck (n : Int) = .ok n := by
  have hlist : queueCapacities main = [(.print_ser_queue, some 32), (.p_queue_1, some 20)] := by
    decide
  refine ⟨hlist, ?_⟩
  intro g c h
  rw [hlist] at h
  simp only [List.mem_cons, Prod.mk.injEq, List.mem_nil_iff, or_false] at h
  rcases h with ⟨_, hc⟩ | ⟨_, hc⟩
  · exact ⟨32, hc, by decide, by simp [capacityCheck]⟩
  · exact ⟨20, hc, by decide, by simp [capacityCheck]⟩

/-! ## Wiring of the tasks (C4, C5, C7) -/

/-- C4: exactly one task is created as "Motor1" and one as "Motor2", and they
are the only motor tasks.  Motor1 receives exactly the registry entries
brake_1, power_1, pot_1 and motor driver 1; Motor2 receives exactly brake_2,
power_2, pot_2 and motor driver 2; the two tasks have no registry entry and no
motor driver in common. -/
theorem motor_tasks_wired_to_own_motor :
    (main.filter fun a => a.taskClass == some .task_motor).map Action.taskName
      = [some "Motor1", some "Motor2"] ∧
    (main.filter fun a => a.taskName == some "Motor1").length = 1 ∧
    (main.filter fun a => a.taskName == some "Motor2").length = 1 ∧
    ∃ m1 m2 : Action,
      taskNamed main "Motor1" = some m1 ∧ taskNamed main "Motor2" = some m2 ∧
      m1.registryRefs = [.brake_1, .power_1, .pot_1] ∧
      m1.driverRefs = [.p_my_motor_driver1] ∧
      m2.registryRefs = [.brake_2, .power_2, .pot_2] ∧
      m2.driverRefs = [.p_my_motor_driver2] ∧
      (∀ g ∈ m1.registryRefs ++ m2.registryRefs, g ∈ (sharedCellsOf main).map Prod.fst) ∧
      (∀ g ∈ m1.registryRefs, g ∉ m2.registryRefs) ∧
      (∀ d ∈ m1.driverRefs, d ∉ m2.driverRefs) := by
  refine ⟨by decide, by decide, by decide,
    .newTask .task_motor
      [.str "Motor1", .idlePriorityPlus 1, .num 240, .num 3, .driver .p_my_motor_driver1,
       .global .brake_1, .global .power_1, .global .pot_1, .num 1, .ser_port],
    .newTask .task_motor
      [.str "Motor2", .idlePriorityPlus 1, .num 240, .num 4, .driver .p_my_motor_driver2,
       .global .brake_2, .global .power_2, .global .pot_2, .num 0, .ser_port],
    by decide, by decide, by decide, by decide, by decide, by decide, by decide, by decide,
    by decide⟩

/-- C5 as stated fails: `main()` creates tasks for hardware collaborators whose
argument list holds no registry reference; task_P is one. -/
theorem collaborator_task_without_registry_refs :
    ¬ ∀ a ∈ main,
        (a.taskClass = some .task_motor ∨ a.taskClass = some .task_encoder
          ∨ a.taskClass = some .task_P) →
        a.registryRefs ≠ [] := by
  intro h
  exact h (.newTask .task_P
      [.str "P1", .idlePriorityPlus 1, .num 240, .ser_port, .driver .p_my_motor_driver1])
    (by decide) (Or.inr (Or.inr rfl)) rfl

/-- C5, amended: of the tasks `main()` creates, only the two motor tasks are
passed registry references as constructor arguments (Motor1: brake_1, power_1,
pot_1; Motor2: brake_2, power_2, pot_2); the creations of task_P, of both
encoder tasks and of the user task pass none. -/
theorem registry_refs_passed_to_tasks :
    (main.filter Action.isTaskCreation).map (fun a => (a.taskName, a.registryRefs)) =
      [ (some "P1", []),
        (some "Motor1", [.brake_1, .power_1, .pot_1]),
        (some "Motor2", [.brake_2, .power_2, .pot_2]),
        (some "Encoder1", []),
        (some "Encoder2", []),
        (some "UserInt", []) ] ∧
    ∀ a ∈ main, a.isTaskCreation = true →
      (a.registryRefs ≠ [] ↔ a.taskClass = some .task_motor) := by
  refine ⟨by decide, by decide⟩

/-- C7 as stated fails: print_ser_queue is not the only holder of a reference
to the serial port, and `main()` does write to the serial port directly. -/
theorem serial_port_not_only_in_text_queue :
    (¬ ∀ h ∈ serialHolders main, h = Holder.global .print_ser_queue) ∧
    (¬ ∀ a ∈ main, a.isSerialWrite = false) := by
  constructor
  · intro h
    exact absurd (h (.driver .p_my_motor_driver1) (by decide)) (by decide)
  · intro h
    exact absurd (h (.serialWrite [.endl]) (by decide)) (by decide)

/-- C7, amended: among the global communication objects, print_ser_queue is the
only one that is passed `&ser_port`; besides it, both motor drivers and all six
tasks are passed `&ser_port`, and `main()` writes to the serial port directly
twice: the banner (statement 3) and a blank line after the last task creation
(statement 27). -/
theorem serial_port_holders_and_writes :
    serialHolders main =
      [ .global .print_ser_queue,
        .driver .p_my_motor_driver1, .driver .p_my_motor_driver2,
        .task "P1", .task "Motor1", .task "Motor2", .task "Encoder1", .task "Encoder2",
        .task "UserInt" ] ∧
    (∀ g : GlobalName, Holder.global g ∈ serialHolders main → g = .print_ser_queue) ∧
    serialWriteIndices main = [3, 27] ∧
    main[3]? = some (.serialWrite [.clrscr, .PMS "ME405/FreeRTOS Test Program", .endl]) ∧
    main[27]? = some (.serialWrite [.endl]) := by
  have hlist : serialHolders main =
      [ .global .print_ser_queue,
        .driver .p_my_motor_driver1, .driver .p_my_motor_driver2,
        .task "P1", .task "Motor1", .task "Motor2", .task "Encoder1", .task "Encoder2",
        .task "UserInt" ] := by decide
  refine ⟨hlist, ?_, by decide, by decide, by decide⟩
  intro g hg
  rw [hlist] at hg
  simpa using hg

/-! ## The communication primitives (C8, C9) -/

/-- Sending a list of items that fits into the free space succeeds for every
item and appends the items at the tail in order. -/
theorem sendAll_of_room {T : Type} (w : Wait) (items : List T) (q : BoundedQueue T)
    (h : q.storage.length + items.length ≤ q.capacity) :
    q.sendAll w items
      = some (items.map (fun _ => Except.ok ()), { q with storage := q.storage ++ items }) := by
  induction items generalizing q with
  | nil => simp [BoundedQueue.sendAll]
  | cons x xs ih =>
    have hlt : q.storage.length < q.capacity := by
      simp only [List.length_cons] at h
      omega
    have hroom : ({ q with storage := q.storage ++ [x] } : BoundedQueue T).storage.length
        + xs.length ≤ ({ q with storage := q.storage ++ [x] } : BoundedQueue T).capacity := by
      simp only [List.length_append, List.length_cons, List.length_nil] at h ⊢
      omega
    simp [BoundedQueue.sendAll, BoundedQueue.send, hlt, ih _ hroom]

/-- Receiving as many times as there are items at the head of the storage
returns these items in order and leaves the rest. -/
theorem receiveN_of_stored {T : Type} (w : Wait) (items rest : List T) (q : BoundedQueue T)
    (h : q.storage = items ++ rest) :
    q.receiveN w items.length
      = some (items.map Except.ok, { q with storage := rest }) := by
  induction items generalizing q with
  | nil =>
    cases q
    simp_all [BoundedQueue.receiveN]
  | cons x xs ih =>
    have hstep : q.receive w = some (Except.ok x, { q with storage := xs ++ rest }) := by
      simp [BoundedQueue.receive, h]
    simp [BoundedQueue.receiveN, hstep, ih { q with storage := xs ++ rest } rfl]

/-- One operation keeps the capacity and keeps the number of stored items
within it. -/
theorem step_within_capacity {T : Type} {q q1 : BoundedQueue T} {op : QueueOp T}
    (hq : q.storage.length ≤ q.capacity) (h : q.step op = some q1) :
    q1.capacity = q.capacity ∧ q1.storage.length ≤ q1.capacity := by
  cases op with
  | send item w =>
    simp only [BoundedQueue.step, BoundedQueue.send] at h
    split at h
    · rename_i hlt
      have hq1 : q1 = { q with storage := q.storage ++ [item] } := by
        simpa using h.symm
      subst hq1
      simp only [List.length_append, List.length_cons, List.length_nil, true_and]
      omega
    · cases w with
      | forever => simp at h
      | ticks n =>
        cases n <;> simp at h <;> subst h <;> exact ⟨rfl, hq⟩
  | receive w =>
    simp only [BoundedQueue.step, BoundedQueue.receive] at h
    split at h
    · rename_i item rest hst
      have hq1 : q1 = { q with storage := rest } := by
        simpa using h.symm
      subst hq1
      rw [hst] at hq
      simp only [List.length_cons] at hq
      simp only [true_and]
      omega
    · cases w with
      | forever => simp at h
      | ticks n =>
        cases n <;> simp at h <;> subst h <;> exact ⟨rfl, hq⟩

/-- Under any sequence of operations every state a queue passes through keeps
the capacity and holds at most that many items. -/
theorem states_within_capacity {T : Type} (ops : List (QueueOp T)) (q : BoundedQueue T)
    (hq : q.storage.length ≤ q.capacity) :
    ∀ s ∈ q.states ops, s.capacity = q.capacity ∧ s.storage.length ≤ q.capacity := by
  induction ops generalizing q with
  | nil =>
    intro s hs
    simp only [BoundedQueue.states, List.mem_singleton] at hs
    subst hs
    exact ⟨rfl, hq⟩
  | cons op rest ih =>
    intro s hs
    simp only [BoundedQueue.states] at hs
    split at hs
    · simp only [List.mem_singleton] at hs
      subst hs
      exact ⟨rfl, hq⟩
    · rename_i q1 hstep
      have h1 := step_within_capacity hq hstep
      simp only [List.mem_cons] at hs
      rcases hs with hs | hs
      · subst hs
        exact ⟨rfl, hq⟩
      · have h2 := ih q1 h1.2 s hs
        rw [h1.1] at h2
        exact h2

/-- C8: p_queue_1 is constructed once, as an `frt_queue<uint32_t>` of size 20.
For every sequence of at most 20 items, sending all items in order to the
freshly constructed queue succeeds for every item, and receiving the same number
of items then returns exactly the sent items in the same order and leaves the
queue empty; under any sequence of operations the queue never holds more than
20 items. -/
theorem p_queue_1_fifo_round_trip (items : List (ElemType.Val .uint32_t))
    (hlen : items.length ≤ 20) (w : Wait) :
    constructionsOf main .p_queue_1 = [.frt_queue .uint32_t] ∧
    (GlobalName.p_queue_1, some 20) ∈ queueCapacities main ∧
    ∃ q0 q1 q2 : BoundedQueue (ElemType.Val .uint32_t),
      BoundedQueue.create 20 = Except.ok q0 ∧
      q0.sendAll w items = some (items.map (fun _ => Except.ok ()), q1) ∧
      q1.receiveN w items.length = some (items.map Except.ok, q2) ∧
      q2.storage = [] ∧
      ∀ ops : List (QueueOp (ElemType.Val .uint32_t)), ∀ s ∈ q0.states ops,
        s.storage.length ≤ 20 := by
  refine ⟨by decide, by decide, ⟨20, []⟩, ⟨20, items⟩, ⟨20, []⟩, ?_, ?_, ?_, rfl, ?_⟩
  · simp [BoundedQueue.create, capacityCheck]
  · have h := sendAll_of_room w items (⟨20, []⟩ : BoundedQueue (ElemType.Val .uint32_t))
      (by simpa using hlen)
    simpa using h
  · have h := receiveN_of_stored w items [] (⟨20, items⟩ : BoundedQueue (ElemType.Val .uint32_t))
      (by simp)
    simpa using h
  · intro ops s hs
    exact (states_within_capacity ops (⟨20, []⟩ : BoundedQueue (ElemType.Val .uint32_t))
      (by simp) s hs).2

/-- Witness for C8: the items 1, 2, 3 sent and received without blocking. -/
theorem p_queue_1_fifo_round_trip_witness :
    ([⟨1, by decide⟩, ⟨2, by decide⟩, ⟨3, by decide⟩] :
      List { x : Nat // x ≤ 4294967295 }).length ≤ 20 ∧
    ∃ q0 q1 q2 : BoundedQueue (ElemType.Val .uint32_t),
      BoundedQueue.create 20 = Except.ok q0 ∧
      q0.sendAll (.ticks 0) [⟨1, by decide⟩, ⟨2, by decide⟩, ⟨3, by decide⟩]
        = some ([Except.ok (), Except.ok (), Except.ok ()], q1) ∧
      q1.receiveN (.ticks 0) 3
        = some ([Except.ok ⟨1, by decide⟩, Except.ok ⟨2, by decide⟩,
            Except.ok ⟨3, by decide⟩], q2) ∧
      q2.storage = [] ∧
      ∀ ops : List (QueueOp (ElemType.Val .uint32_t)), ∀ s ∈ q0.states ops,
        s.storage.length ≤ 20 :=
  ⟨by decide,
    (p_queue_1_fifo_round_trip [⟨1, by decide⟩, ⟨2, by decide⟩, ⟨3, by decide⟩]
      (by decide) (.ticks 0)).2.2⟩

/-- C9: for every shared-data cell constructed by `main()`, the cell initially
holds the zero value of its element type; after `write v` a read returns `v`,
for every value `v` of the element type and whatever the cell held before; and
an overwrite leaves no trace of the previous value. -/
theorem shared_cell_read_after_write (g : GlobalName) (t : ElemType)
    (h : (g, t) ∈ sharedCellsOf main) (c : SharedCell t.Val) (u v : t.Val) :
    constructionsOf main g = [.shared_data t] ∧
    (startupCell t).read = t.zero ∧
    (c.write v).read = v ∧
    ((c.write u).write v).read = v ∧
    (c.write u).write v = c.write v := by
  have hall : ∀ d ∈ sharedCellsOf main, constructionsOf main d.1 = [.shared_data d.2] := by
    decide
  exact ⟨hall (g, t) h, rfl, rfl, rfl, rfl⟩

/-- Witness for C9: the cell count, a `shared_data<int32_t>`, starts at 0 and
reads 42 after 42 is written over 7. -/
theorem shared_cell_read_after_write_witness :
    (GlobalName.count, ElemType.int32_t) ∈ sharedCellsOf main ∧
    (startupCell .int32_t).read = (⟨0, by decide⟩ : { x : Int // -2147483648 ≤ x ∧ x ≤ 2147483647 }) ∧
    (((startupCell .int32_t).write ⟨7, by decide⟩).write ⟨42, by decide⟩).read
      = (⟨42, by decide⟩ : { x : Int // -2147483648 ≤ x ∧ x ≤ 2147483647 }) :=
  ⟨by decide, rfl,
    (shared_cell_read_after_write .count .int32_t (by decide) (startupCell .int32_t)
      ⟨7, by decide⟩ ⟨42, by decide⟩).2.2.2.1⟩

end ME405
